import Mathlib

/-!
Shallow embedding of `src/verifier/verifier.go` (package `verifier` of
trumail-Email-Verification).

The file under verification contains the orchestration layer only:
`VerifyAddress`, `VerifyEmail` and `VerifyAddressTimeout`.  Its
collaborators (`ParseAddress`, `NewDeliverabler`, `HasCatchAll`,
`IsDeliverable`, `IsDisposable`, `HasGravatar`, and the classifiers
`parseRCPTErr` / `parseSTDErr`) live in other files of the repository
that are not part of the source under `src/`.  Following the usual
technique for embedding code with external calls, one verification run
is parameterised by an `Env` record holding the outcome each
collaborator call produces during that run; the raw error values the
classifiers consume are abstracted away and replaced by the
classifiers' outputs, which is all the orchestrator ever inspects.

Alongside the result, the embedding returns a `RunLog` recording which
collaborator calls happened and the final value of the local `Lookup`
variable, so that the temporal claims (catch-all short-circuit, session
cleanup, "no network activity on parse failure") are statable.
-/

namespace Trumail

/-- Modelled from the spec: the error-message constants of the §7 error
taxonomy (`ErrTimeout`, `ErrUnexpectedResponse`, `ErrEmailParseFailure`,
`ErrNoSuchHost`, `ErrFullInbox`, ...).  Their defining file is not under
`src/`; the orchestrator only ever compares them for equality, so they
are embedded as constructors of an inductive type, with `other` covering
every further kind (temporary rejection, connection refused, ...). -/
inductive LookupMsg where
  | ErrTimeout
  | ErrUnexpectedResponse
  | ErrEmailParseFailure
  | ErrNoSuchHost
  | ErrFullInbox
  | other (s : String)
deriving DecidableEq, Repr

/-- The `LookupError` carried by every error return of the verifier
(message plus details), as constructed by `newLookupError`. -/
structure LookupError where
  Message : LookupMsg
  Details : LookupMsg
deriving DecidableEq, Repr

/-- `newLookupError(message, details)`. -/
def newLookupError (message details : LookupMsg) : LookupError :=
  ⟨message, details⟩

/-- The parsed address (`Address` of the repository): local part, domain
and the full normalized string. -/
structure Address where
  Username : String
  Domain : String
  Address : String
deriving DecidableEq, Repr

/-- `Lookup` — the verdict record of `verifier.go` (lines 27–36); the
embedded XML name is irrelevant to the claims and omitted. -/
structure Lookup where
  address : Address
  Deliverable : Bool
  FullInbox : Bool
  HostExists : Bool
  CatchAll : Bool
  Disposable : Bool
  Gravatar : Bool
deriving DecidableEq, Repr

/-- The classified view of the error returned by a failing
`NewDeliverabler` call: the orchestrator inspects it only through
`parseRCPTErr(err)` (a nullable `LookupError`) and `parseSTDErr(err)`
(returned to the caller).  Modelled from the spec: `parseSTDErr` is not
under `src/`; per §4.3 step 2, "any other open failure is surfaced as
its corresponding error kind", so `parseSTDErr` of an open failure is a
genuine `LookupError`, never nothing. -/
structure OpenErr where
  parseRCPTErr : Option LookupError
  parseSTDErr : LookupError
deriving DecidableEq, Repr

/-- The classified view of the error returned by a failing
`IsDeliverable` call: the orchestrator inspects it only through
`parseRCPTErr(err)`. -/
structure RcptErr where
  parseRCPTErr : Option LookupError
deriving DecidableEq, Repr

/-- The outcomes the collaborator calls produce during one verification
run: the address parser, the disposable-domain and gravatar signals, the
result of opening the probe session (`none` = session opened), the
catch-all probe answer, and the result of the real-address probe
(`none` = accepted). -/
structure Env where
  ParseAddress : String → Option Address
  IsDisposable : Bool
  HasGravatar : Bool
  NewDeliverabler : Option OpenErr
  HasCatchAll : Bool
  IsDeliverable : Option RcptErr

/-- Which collaborator calls a run performed, whether the deferred
`Close()` on the probe session ran before returning, and the final value
of the local `Lookup` variable `l` (also on error paths, where the Go
code discards it). -/
structure RunLog where
  openCalled : Bool
  catchAllCalled : Bool
  isDeliverableCalled : Bool
  closeCalled : Bool
  finalLookup : Option Lookup
deriving DecidableEq, Repr

/-- The composite literal of `VerifyAddress` lines 87–92: `HostExists`
starts `true`, `Disposable` and `Gravatar` come from their collaborator
calls, the remaining fields are Go zero values (`false`). -/
def initLookup (env : Env) (address : Address) : Lookup :=
  { address := address
    Deliverable := false
    FullInbox := false
    HostExists := true
    CatchAll := false
    Disposable := env.IsDisposable
    Gravatar := env.HasGravatar }

/-- `VerifyAddress` (verifier.go lines 84–129), with the run log made
explicit.  Every exit path after the successful `NewDeliverabler` sets
`closeCalled := true`, mirroring `defer del.Close()` (line 105). -/
def VerifyAddress (env : Env) (address : Address) :
    Except LookupError Lookup × RunLog :=
  let l := initLookup env address
  match env.NewDeliverabler with
  | some err =>
      -- lines 96–104: classify, optionally record HostExists = false,
      -- return parseSTDErr(err) and no Lookup (l is discarded).
      let l :=
        match err.parseRCPTErr with
        | some le =>
            if le.Message = LookupMsg.ErrNoSuchHost then
              { l with HostExists := false }
            else l
        | none => l
      (Except.error err.parseSTDErr,
        { openCalled := true
          catchAllCalled := false
          isDeliverableCalled := false
          closeCalled := false
          finalLookup := some l })
  | none =>
      -- lines 107–111: catch-all probe.
      let l :=
        if env.HasCatchAll then
          { l with CatchAll := true, Deliverable := true }
        else l
      -- lines 113–127: real-address probe, only when not a catch-all.
      if !l.CatchAll then
        match env.IsDeliverable with
        | some err =>
            match err.parseRCPTErr with
            | some le =>
                if le.Message = LookupMsg.ErrFullInbox then
                  -- line 119: set FullInbox and move on.
                  let l := { l with FullInbox := true }
                  (Except.ok l,
                    { openCalled := true
                      catchAllCalled := true
                      isDeliverableCalled := true
                      closeCalled := true
                      finalLookup := some l })
                else
                  -- line 121: return the classified error.
                  (Except.error le,
                    { openCalled := true
                      catchAllCalled := true
                      isDeliverableCalled := true
                      closeCalled := true
                      finalLookup := some l })
            | none =>
                -- unclassified probe error: the Go code falls through
                -- to `return l, nil`.
                (Except.ok l,
                  { openCalled := true
                    catchAllCalled := true
                    isDeliverableCalled := true
                    closeCalled := true
                    finalLookup := some l })
        | none =>
            -- line 125: accepted.
            let l := { l with Deliverable := true }
            (Except.ok l,
              { openCalled := true
                catchAllCalled := true
                isDeliverableCalled := true
                closeCalled := true
                finalLookup := some l })
      else
        (Except.ok l,
          { openCalled := true
            catchAllCalled := true
            isDeliverableCalled := false
            closeCalled := true
            finalLookup := some l })

/-- The log of a run that never reaches `VerifyAddress`. -/
def emptyRunLog : RunLog :=
  { openCalled := false
    catchAllCalled := false
    isDeliverableCalled := false
    closeCalled := false
    finalLookup := none }

/-- `VerifyEmail` (lines 71–80): parse, then delegate to
`VerifyAddress`. -/
def VerifyEmail (env : Env) (email : String) :
    Except LookupError Lookup × RunLog :=
  match env.ParseAddress email with
  | none =>
      (Except.error
          (newLookupError LookupMsg.ErrEmailParseFailure
            LookupMsg.ErrEmailParseFailure),
        emptyRunLog)
  | some a => VerifyAddress env a

/-- The dynamic value the worker goroutine of `VerifyAddressTimeout`
sends on the channel (lines 44–51): the `interface{}` channel may in
principle carry any value, captured by the `other` constructor. -/
inductive ChanMsg where
  | lookup (l : Lookup)
  | err (e : LookupError)
  | other
deriving DecidableEq, Repr

/-- What the worker goroutine actually sends: the error when
`VerifyAddress` failed, its `Lookup` otherwise. -/
def workerSend (env : Env) (address : Address) : ChanMsg :=
  match (VerifyAddress env address).1 with
  | Except.error e => ChanMsg.err e
  | Except.ok d => ChanMsg.lookup d

/-- The type switch of the receive case (lines 56–63), including the
default branch returning `ErrUnexpectedResponse`. -/
def receiveDispatch (res : ChanMsg) : Except LookupError Lookup :=
  match res with
  | ChanMsg.lookup r => Except.ok r
  | ChanMsg.err r => Except.error r
  | ChanMsg.other =>
      Except.error
        (newLookupError LookupMsg.ErrUnexpectedResponse
          LookupMsg.ErrUnexpectedResponse)

/-- `VerifyAddressTimeout` (lines 40–67).  Which `select` arm fires is a
scheduling outcome, passed in as `timedOut`: `true` models the deadline
timer winning the race, `false` models the worker's message arriving
first. -/
def VerifyAddressTimeout (env : Env) (address : Address)
    (timedOut : Bool) : Except LookupError Lookup :=
  if timedOut then
    Except.error (newLookupError LookupMsg.ErrTimeout LookupMsg.ErrTimeout)
  else
    receiveDispatch (workerSend env address)

/-- The §3 field invariants of a verdict. -/
def LookupInvariants (l : Lookup) : Prop :=
  (l.HostExists = false →
      l.Deliverable = false ∧ l.CatchAll = false ∧ l.FullInbox = false) ∧
  (l.CatchAll = true → l.Deliverable = true) ∧
  (l.FullInbox = true → l.Deliverable = false ∧ l.CatchAll = false)

instance (l : Lookup) : Decidable (LookupInvariants l) := by
  unfold LookupInvariants
  infer_instance

/-! ### Concrete runs used to witness the theorems -/

/-- A concrete parsed address. -/
def addr0 : Address := ⟨"user", "example.com", "user@example.com"⟩

/-- A run whose probes all succeed: session opened, not a catch-all,
real address accepted. -/
def envAccept : Env :=
  { ParseAddress := fun s => if s = "user@example.com" then some addr0 else none
    IsDisposable := false
    HasGravatar := false
    NewDeliverabler := none
    HasCatchAll := false
    IsDeliverable := none }

/-- A run against a catch-all server. -/
def envCatchAll : Env :=
  { envAccept with HasCatchAll := true }

/-- A run whose real-address probe is rejected with a full-mailbox
classification. -/
def envFullInbox : Env :=
  { envAccept with
      IsDeliverable :=
        some ⟨some (newLookupError LookupMsg.ErrFullInbox
          (LookupMsg.other "452 mailbox full"))⟩ }

/-- A run whose real-address probe fails hard (classified, but not as a
full inbox). -/
def envRcptFail : Env :=
  { envAccept with
      IsDeliverable :=
        some ⟨some (newLookupError (LookupMsg.other "server_unavailable")
          (LookupMsg.other "550 blocked"))⟩ }

/-- A run in which opening the probe session fails with a no-such-host
classification. -/
def envNoHost : Env :=
  { envAccept with
      NewDeliverabler :=
        some ⟨some (newLookupError LookupMsg.ErrNoSuchHost
            LookupMsg.ErrNoSuchHost),
          newLookupError LookupMsg.ErrNoSuchHost LookupMsg.ErrNoSuchHost⟩ }

/-! ### Helper lemmas shared by the claim theorems -/

/-- Every `Lookup` that `VerifyAddress` returns successfully has
`HostExists = true` and satisfies the §3 invariants. -/
lemma VerifyAddress_ok_shape (env : Env) (a : Address) (l : Lookup)
    (h : (VerifyAddress env a).1 = Except.ok l) :
    l.HostExists = true ∧ LookupInvariants l := by
  rcases hdel : env.NewDeliverabler with _ | err
  · rcases hca : env.HasCatchAll with _ | _
    · rcases hdeliv : env.IsDeliverable with _ | r
      · simp [VerifyAddress, initLookup, hdel, hca, hdeliv] at h
        simp [← h, LookupInvariants]
      · rcases hcls : r.parseRCPTErr with _ | le
        · simp [VerifyAddress, initLookup, hdel, hca, hdeliv, hcls] at h
          simp [← h, LookupInvariants]
        · by_cases hfull : le.Message = LookupMsg.ErrFullInbox
          · simp [VerifyAddress, initLookup, hdel, hca, hdeliv, hcls,
              hfull] at h
            simp [← h, LookupInvariants]
          · simp [VerifyAddress, initLookup, hdel, hca, hdeliv, hcls,
              hfull] at h
    · simp [VerifyAddress, initLookup, hdel, hca] at h
      simp [← h, LookupInvariants]
  · simp [VerifyAddress, initLookup, hdel] at h

/-- A successful `VerifyEmail` result is a successful `VerifyAddress`
result for the parsed address. -/
lemma VerifyEmail_ok (env : Env) (email : String) (l : Lookup)
    (h : (VerifyEmail env email).1 = Except.ok l) :
    ∃ a, (VerifyAddress env a).1 = Except.ok l := by
  rcases hp : env.ParseAddress email with _ | a
  · simp [VerifyEmail, hp, emptyRunLog] at h
  · refine ⟨a, ?_⟩
    simpa [VerifyEmail, hp] using h

/-- A successful `VerifyAddressTimeout` result is the successful
`VerifyAddress` result. -/
lemma VerifyAddressTimeout_ok (env : Env) (a : Address) (t : Bool)
    (l : Lookup) (h : VerifyAddressTimeout env a t = Except.ok l) :
    (VerifyAddress env a).1 = Except.ok l := by
  cases t
  · rcases hv : (VerifyAddress env a).1 with e | d
    · simp [VerifyAddressTimeout, receiveDispatch, workerSend, hv] at h
    · simpa [VerifyAddressTimeout, receiveDispatch, workerSend, hv] using h
  · simp [VerifyAddressTimeout, newLookupError] at h

/-- The verdict `VerifyAddress` produces on the all-success run. -/
def lookupAccept : Lookup :=
  { address := addr0
    Deliverable := true
    FullInbox := false
    HostExists := true
    CatchAll := false
    Disposable := false
    Gravatar := false }

/-! ### The claims -/

/-- C1: every `Lookup` returned successfully by `VerifyAddress` — and
hence by `VerifyEmail` and `VerifyAddressTimeout` — satisfies the three
§3 field invariants (`HostExists = false` implies all the probe fields
are false; `CatchAll = true` implies `Deliverable = true`;
`FullInbox = true` implies `Deliverable = false` and
`CatchAll = false`). -/
theorem claim_C1_verdict_invariants (env : Env) (a : Address)
    (email : String) (t : Bool) (l : Lookup)
    (h : (VerifyAddress env a).1 = Except.ok l ∨
      (VerifyEmail env email).1 = Except.ok l ∨
      VerifyAddressTimeout env a t = Except.ok l) :
    LookupInvariants l := by
  rcases h with h | h | h
  · exact (VerifyAddress_ok_shape env a l h).2
  · obtain ⟨b, hb⟩ := VerifyEmail_ok env email l h
    exact (VerifyAddress_ok_shape env b l hb).2
  · exact (VerifyAddress_ok_shape env a l
      (VerifyAddressTimeout_ok env a t l h)).2

/-- Witness for C1: the all-success run returns a verdict and it
satisfies the invariants. -/
theorem claim_C1_witness : LookupInvariants lookupAccept :=
  claim_C1_verdict_invariants envAccept addr0 "user@example.com" false
    lookupAccept (Or.inl rfl)

/-- C2: when the catch-all test is false and `IsDeliverable` fails with
an error whose classification is not full-inbox, `VerifyAddress` returns
exactly that classified error and no `Lookup` — no degraded verdict. -/
theorem claim_C2_probe_error_surfaced (env : Env) (a : Address)
    (r : RcptErr) (le : LookupError)
    (hopen : env.NewDeliverabler = none)
    (hca : env.HasCatchAll = false)
    (hfail : env.IsDeliverable = some r)
    (hcls : r.parseRCPTErr = some le)
    (hnotfull : le.Message ≠ LookupMsg.ErrFullInbox) :
    (VerifyAddress env a).1 = Except.error le := by
  simp [VerifyAddress, initLookup, hopen, hca, hfail, hcls, hnotfull]

/-- Witness for C2: a hard-classified probe rejection is surfaced as the
error itself. -/
theorem claim_C2_witness :
    (VerifyAddress envRcptFail addr0).1 =
      Except.error (newLookupError (LookupMsg.other "server_unavailable")
        (LookupMsg.other "550 blocked")) :=
  claim_C2_probe_error_surfaced envRcptFail addr0 _ _ rfl rfl rfl rfl
    (by decide)

/-- C3: with the catch-all test false, an accepted real-address probe
yields `Deliverable = true`; a full-inbox classified rejection yields a
`Lookup` (not an error) with `FullInbox = true` and
`Deliverable = false`. -/
theorem claim_C3_probe_outcomes (env : Env) (a : Address)
    (hopen : env.NewDeliverabler = none)
    (hca : env.HasCatchAll = false) :
    (env.IsDeliverable = none →
      ∃ l, (VerifyAddress env a).1 = Except.ok l ∧ l.Deliverable = true) ∧
    (∀ r le, env.IsDeliverable = some r → r.parseRCPTErr = some le →
      le.Message = LookupMsg.ErrFullInbox →
      ∃ l, (VerifyAddress env a).1 = Except.ok l ∧ l.FullInbox = true ∧
        l.Deliverable = false) := by
  constructor
  · intro hdeliv
    refine ⟨{ initLookup env a with Deliverable := true }, ?_, rfl⟩
    simp [VerifyAddress, initLookup, hopen, hca, hdeliv]
  · intro r le hr hcls hfull
    refine ⟨{ initLookup env a with FullInbox := true }, ?_, rfl, rfl⟩
    simp [VerifyAddress, initLookup, hopen, hca, hr, hcls, hfull]

/-- Witness for C3: both probe outcomes realized on concrete runs. -/
theorem claim_C3_witness :
    (∃ l, (VerifyAddress envAccept addr0).1 = Except.ok l ∧
      l.Deliverable = true) ∧
    (∃ l, (VerifyAddress envFullInbox addr0).1 = Except.ok l ∧
      l.FullInbox = true ∧ l.Deliverable = false) :=
  ⟨(claim_C3_probe_outcomes envAccept addr0 rfl rfl).1 rfl,
   (claim_C3_probe_outcomes envFullInbox addr0 rfl rfl).2 _ _ rfl rfl rfl⟩

/-- C4: when `HasCatchAll` answers true, `IsDeliverable` is never
invoked in that run, and the returned `Lookup` has `CatchAll = true` and
`Deliverable = true`. -/
theorem claim_C4_catchall_short_circuit (env : Env) (a : Address)
    (hopen : env.NewDeliverabler = none)
    (hca : env.HasCatchAll = true) :
    (VerifyAddress env a).2.isDeliverableCalled = false ∧
    ∃ l, (VerifyAddress env a).1 = Except.ok l ∧ l.CatchAll = true ∧
      l.Deliverable = true := by
  constructor
  · simp [VerifyAddress, initLookup, hopen, hca]
  · refine ⟨{ initLookup env a with CatchAll := true, Deliverable := true },
      ?_, rfl, rfl⟩
    simp [VerifyAddress, hopen, hca]

/-- Witness for C4: the catch-all run never probes the real address and
reports a catch-all deliverable verdict. -/
theorem claim_C4_witness :
    (VerifyAddress envCatchAll addr0).2.isDeliverableCalled = false ∧
    ∃ l, (VerifyAddress envCatchAll addr0).1 = Except.ok l ∧
      l.CatchAll = true ∧ l.Deliverable = true :=
  claim_C4_catchall_short_circuit envCatchAll addr0 rfl rfl

/-- C5: when opening the probe session fails, `VerifyAddress` returns
the classified open error and no `Lookup`, with neither the catch-all
nor the real-address probe run; a `NoSuchHost` classification records
`HostExists = false` in the (discarded) `Lookup`. -/
theorem claim_C5_open_failure (env : Env) (a : Address) (err : OpenErr)
    (hopen : env.NewDeliverabler = some err) :
    (VerifyAddress env a).1 = Except.error err.parseSTDErr ∧
    (VerifyAddress env a).2.catchAllCalled = false ∧
    (VerifyAddress env a).2.isDeliverableCalled = false ∧
    (∀ le, err.parseRCPTErr = some le →
      le.Message = LookupMsg.ErrNoSuchHost →
      ∃ l, (VerifyAddress env a).2.finalLookup = some l ∧
        l.HostExists = false) := by
  refine ⟨?_, ?_, ?_, ?_⟩
  · simp [VerifyAddress, initLookup, hopen]
  · simp [VerifyAddress, initLookup, hopen]
  · simp [VerifyAddress, initLookup, hopen]
  · intro le hle hmsg
    refine ⟨{ initLookup env a with HostExists := false }, ?_, rfl⟩
    simp [VerifyAddress, hopen, hle, hmsg]

/-- Witness for C5: the no-such-host run returns the classified error
and records `HostExists = false`. -/
theorem claim_C5_witness :
    (VerifyAddress envNoHost addr0).1 =
      Except.error (newLookupError LookupMsg.ErrNoSuchHost
        LookupMsg.ErrNoSuchHost) ∧
    ∃ l, (VerifyAddress envNoHost addr0).2.finalLookup = some l ∧
      l.HostExists = false :=
  ⟨(claim_C5_open_failure envNoHost addr0 _ rfl).1,
   (claim_C5_open_failure envNoHost addr0 _ rfl).2.2.2 _ rfl rfl⟩

/-- C6: `VerifyAddressTimeout` propagates the `VerifyAddress` outcome
unchanged when the worker wins the race (the exact `Lookup` on success,
the exact error on failure), and returns exactly the `Timeout` error
when the deadline wins; no other outcome exists for these two cases. -/
theorem claim_C6_timeout_guard (env : Env) (a : Address) :
    VerifyAddressTimeout env a false = (VerifyAddress env a).1 ∧
    VerifyAddressTimeout env a true =
      Except.error (newLookupError LookupMsg.ErrTimeout
        LookupMsg.ErrTimeout) := by
  constructor
  · rcases hv : (VerifyAddress env a).1 with e | d <;>
      simp [VerifyAddressTimeout, receiveDispatch, workerSend, hv]
  · simp [VerifyAddressTimeout]

/-- C7: a parse failure yields the `EmailParseFailure` error with no
`Lookup` and an empty run log — in particular the probe open never runs;
a successful parse makes `VerifyEmail` exactly `VerifyAddress` on the
parsed address. -/
theorem claim_C7_parse_gate (env : Env) (email : String) :
    (env.ParseAddress email = none →
      VerifyEmail env email =
        (Except.error (newLookupError LookupMsg.ErrEmailParseFailure
          LookupMsg.ErrEmailParseFailure), emptyRunLog) ∧
      (VerifyEmail env email).2.openCalled = false) ∧
    (∀ a, env.ParseAddress email = some a →
      VerifyEmail env email = VerifyAddress env a) := by
  constructor
  · intro hp
    constructor
    · simp [VerifyEmail, hp]
    · simp [VerifyEmail, hp, emptyRunLog]
  · intro a hp
    simp [VerifyEmail, hp]

/-- Witness for C7: a malformed string fails with no probe activity, and
a well-formed one delegates to `VerifyAddress`. -/
theorem claim_C7_witness :
    (VerifyEmail envAccept "not-an-email" =
      (Except.error (newLookupError LookupMsg.ErrEmailParseFailure
        LookupMsg.ErrEmailParseFailure), emptyRunLog) ∧
      (VerifyEmail envAccept "not-an-email").2.openCalled = false) ∧
    VerifyEmail envAccept "user@example.com" = VerifyAddress envAccept addr0 :=
  ⟨(claim_C7_parse_gate envAccept "not-an-email").1 rfl,
   (claim_C7_parse_gate envAccept "user@example.com").2 addr0 rfl⟩

/-- C8: whenever the probe session opens successfully, the deferred
`Close` runs before `VerifyAddress` returns, on every exit path
(success, catch-all, full inbox, unclassified fall-through, and the
error return). -/
theorem claim_C8_session_closed (env : Env) (a : Address)
    (hopen : env.NewDeliverabler = none) :
    (VerifyAddress env a).2.closeCalled = true := by
  rcases hca : env.HasCatchAll with _ | _
  · rcases hdeliv : env.IsDeliverable with _ | r
    · simp [VerifyAddress, initLookup, hopen, hca, hdeliv]
    · rcases hcls : r.parseRCPTErr with _ | le
      · simp [VerifyAddress, initLookup, hopen, hca, hdeliv, hcls]
      · by_cases hfull : le.Message = LookupMsg.ErrFullInbox <;>
          simp [VerifyAddress, initLookup, hopen, hca, hdeliv, hcls, hfull]
  · simp [VerifyAddress, initLookup, hopen, hca]

/-- Witness for C8: the session is closed on the hard-failure exit
path. -/
theorem claim_C8_witness :
    (VerifyAddress envRcptFail addr0).2.closeCalled = true :=
  claim_C8_session_closed envRcptFail addr0 rfl

/-- C9: every `Lookup` actually returned (non-error) by `VerifyAddress`
has `HostExists = true`: the field starts true and the only assignment
to false lies on a path returning an error and discarding the
`Lookup`. -/
theorem claim_C9_host_exists_true (env : Env) (a : Address) (l : Lookup)
    (h : (VerifyAddress env a).1 = Except.ok l) :
    l.HostExists = true :=
  (VerifyAddress_ok_shape env a l h).1

/-- Witness for C9: the all-success verdict has `HostExists = true`. -/
theorem claim_C9_witness : lookupAccept.HostExists = true :=
  claim_C9_host_exists_true envAccept addr0 lookupAccept rfl

/-- C10: the worker goroutine always sends either a `Lookup` or an
error on the channel, so the type switch's default branch (the
`UnexpectedResponse` return) is unreachable. -/
theorem claim_C10_no_default_branch (env : Env) (a : Address) :
    (∃ l, workerSend env a = ChanMsg.lookup l) ∨
    (∃ e, workerSend env a = ChanMsg.err e) := by
  rcases hv : (VerifyAddress env a).1 with e | d
  · exact Or.inr ⟨e, by simp [workerSend, hv]⟩
  · exact Or.inl ⟨d, by simp [workerSend, hv]⟩

end Trumail
